import Mathlib

/-!
Shallow embedding of the `sgoyalsmvj/whiteboard` core:
the instruction interpreter and playback loop of
`src/components/AIDrivenWhiteboard.tsx`, and the `/api/draw` route handler
with its `generateMockInstructions` fallback table.

Numbers: every coordinate appearing in the source tables and in the claims is
an integer, and the arithmetic performed on coordinates (subtraction,
`Math.min`/`Math.max`) is exact on integers in IEEE doubles, so coordinates
are embedded as `Int`.
-/

namespace Whiteboard

/-- A 2D coordinate pair `[x, y]`. -/
structure Point where
  x : Int
  y : Int
deriving DecidableEq, Repr

/-- One `{ type: "straight", points: [p1, p2] }` segment of a tldraw draw
shape. The `type` field is always the string `"straight"` in the source, so it
is not carried. -/
structure Segment where
  p1 : Point
  p2 : Point
deriving DecidableEq, Repr

/-- Which geo-like instruction a `DrawShapeInstruction` carries
(`"drawTriangle" | "drawCircle" | "drawRectangle"`). -/
inductive ShapeType where
  | triangle
  | circle
  | rectangle
deriving DecidableEq, Repr

/-- The variant-specific fields of a `DrawInstruction`, one constructor per
TypeScript interface.  `fromPt`/`toPt` embed the source fields `from`/`to`
(`from` is a Lean keyword). -/
inductive InstructionPayload where
  | drawText (text : String) (position : Point)
  | drawArrow (fromPt : Point) (toPt : Point)
  | drawShape (shapeType : ShapeType) (points : Option (List Point))
      (position : Option Point) (size : Option Point)
  | drawLine (isPath : Bool) (fromPt : Option Point) (toPt : Option Point)
      (points : Option (List Point))
  | drawHighlight (points : List Point)
  | showImage (url : String) (position : Point) (size : Point)
  | drawCodeBlock (text : String) (position : Point) (size : Option Point)
  | drawSpeechBubble (text : String) (position : Point)
deriving DecidableEq, Repr

/-- A `DrawInstruction`: the `BaseInstruction` optional fields plus the
variant payload. -/
structure DrawInstruction where
  id : Option String := none
  step : Option Nat := none
  color : Option String := none
  opacity : Option Int := none
  layer : Option String := none
  duration : Option Nat := none
  visible : Option Bool := none
  narration : Option String := none
  payload : InstructionPayload
deriving DecidableEq, Repr

/-- One `editor.createShape({...})` invocation, one constructor per shape
`type` used by the component.  `arrow` carries the literal `start`/`end`
props; `text` carries the optional `size` prop (present only for
drawCodeBlock/drawSpeechBubble); `draw` carries the optional `isClosed` and
`fill` props (absent when the source omits them). -/
inductive ShapeCall where
  | text (x y : Int) (richText : String) (color : String) (size : Option String)
  | arrow (x y : Int) (startX startY endX endY : Int) (color : String)
  | draw (x y : Int) (segments : List Segment) (color : String) (size : String)
      (isClosed : Option Bool) (fill : Option String)
  | geo (geoStyle : String) (x y : Int) (w h : Int) (color : String)
  | image (x y : Int) (w h : Int) (url : String)
deriving DecidableEq, Repr

/-- The fixed tldraw palette that `mapToTldrawColor` draws its outputs from. -/
def palette : List String :=
  ["black", "grey", "light-violet", "violet", "blue", "light-blue", "yellow",
   "orange", "green", "light-green", "red", "light-red", "white"]

/-- The `colorMap` object literal of `mapToTldrawColor`, as an association
list in declaration order. -/
def colorMap : List (String × String) :=
  [("#000000", "black"),
   ("#808080", "grey"),
   ("#d4d4ff", "light-violet"),
   ("#9747ff", "violet"),
   ("#0000ff", "blue"),
   ("#4dabf7", "light-blue"),
   ("#ffff00", "yellow"),
   ("#ffa500", "orange"),
   ("#ff4500", "orange"),
   ("#008000", "green"),
   ("#90ee90", "light-green"),
   ("#ff0000", "red"),
   ("#ffa07a", "light-red"),
   ("#ffffff", "white"),
   ("black", "black"),
   ("grey", "grey"),
   ("gray", "grey"),
   ("violet", "violet"),
   ("purple", "violet"),
   ("blue", "blue"),
   ("lightblue", "light-blue"),
   ("light-blue", "light-blue"),
   ("yellow", "yellow"),
   ("orange", "orange"),
   ("orangered", "orange"),
   ("green", "green"),
   ("lightgreen", "light-green"),
   ("light-green", "light-green"),
   ("red", "red"),
   ("lightred", "light-red"),
   ("light-red", "light-red"),
   ("white", "white")]

/-- ASCII lowercasing of one character.  Every string this code case-maps
(hex codes, color names, topics from the fixed tables) is ASCII, where
JavaScript `toLowerCase()` is exactly this map. -/
def jsToLowerChar (c : Char) : Char :=
  if 65 ≤ c.toNat && c.toNat ≤ 90 then Char.ofNat (c.toNat + 32) else c

/-- JavaScript `toLowerCase()` on ASCII strings. -/
def jsToLower (s : String) : String :=
  ⟨s.data.map jsToLowerChar⟩

/-- ASCII uppercasing of one character. -/
def jsToUpperChar (c : Char) : Char :=
  if 97 ≤ c.toNat && c.toNat ≤ 122 then Char.ofNat (c.toNat - 32) else c

/-- JavaScript `toUpperCase()` on ASCII strings. -/
def jsToUpper (s : String) : String :=
  ⟨s.data.map jsToUpperChar⟩

/-- `mapToTldrawColor`: absent input returns `"black"`; otherwise the
lowercased input is looked up in `colorMap`, defaulting to `"black"`.
(The JS guard `if (!colorInput)` also fires on the empty string, but the
empty string is not a `colorMap` key, so the lookup default gives the same
result.) -/
def mapToTldrawColor (colorInput : Option String) : String :=
  match colorInput with
  | none => "black"
  | some c => (colorMap.lookup (jsToLower c)).getD "black"

/-- The effective point list of a drawLine/drawPath instruction:
`instruction.points || (from && to ? [from, to] : [])`.  In JS an array is
always truthy, so a present-but-short `points` list is used as is; the
`[from, to]` fallback fires only when `points` is absent. -/
def linePoints (points : Option (List Point)) (fromPt toPt : Option Point) :
    List Point :=
  match points with
  | some ps => ps
  | none =>
    match fromPt, toPt with
    | some a, some b => [a, b]
    | _, _ => []

/-- The segments built by the loops `for (i = 0; i < points.length - 1; i++)`:
one straight segment per consecutive point pair. -/
def consecutiveSegments : List Point → List Segment
  | p :: q :: rest => ⟨p, q⟩ :: consecutiveSegments (q :: rest)
  | _ => []

/-- `Math.min(...xs)` on a nonempty integer list (every call site is guarded
by a nonemptiness check; the empty case is never reached). -/
def jsMin : List Int → Int
  | [] => 0
  | h :: t => t.foldl min h

/-- `Math.max(...xs)` on a nonempty integer list. -/
def jsMax : List Int → Int
  | [] => 0
  | h :: t => t.foldl max h

/-- The body of `executeInstruction`'s `switch`: the `editor.createShape`
call this instruction issues, or `none` when the case `break`s without
creating a shape.  Each case issues at most one `createShape` call. -/
def executeInstruction (instruction : DrawInstruction) : Option ShapeCall :=
  let color := mapToTldrawColor instruction.color
  match instruction.payload with
  | .drawText text position =>
    some (.text position.x position.y text color none)
  | .drawArrow fromPt toPt =>
    some (.arrow fromPt.x fromPt.y 0 0 (toPt.x - fromPt.x) (toPt.y - fromPt.y)
      color)
  | .drawLine _ fromPt toPt pointsOpt =>
    let points := linePoints pointsOpt fromPt toPt
    if points.length < 2 then none
    else some (.draw 0 0 (consecutiveSegments points) color "m" none none)
  | .drawShape .triangle pointsOpt _ _ =>
    let points := pointsOpt.getD []
    if points.length < 3 then none
    else
      some (.draw 0 0
        (consecutiveSegments points ++
          [⟨points.getLastD ⟨0, 0⟩, points.headD ⟨0, 0⟩⟩])
        color "m" (some true) none)
  | .drawShape .circle pointsOpt positionOpt sizeOpt =>
    match positionOpt, sizeOpt with
    | some position, some size =>
      some (.geo "ellipse" position.x position.y size.x size.y color)
    | _, _ =>
      match pointsOpt with
      | some points =>
        if points.length > 0 then
          let xs := points.map (·.x)
          let ys := points.map (·.y)
          some (.geo "ellipse" (jsMin xs) (jsMin ys) (jsMax xs - jsMin xs)
            (jsMax ys - jsMin ys) color)
        else none
      | none => none
  | .drawShape .rectangle pointsOpt positionOpt sizeOpt =>
    match positionOpt, sizeOpt with
    | some position, some size =>
      some (.geo "rectangle" position.x position.y size.x size.y color)
    | _, _ =>
      match pointsOpt with
      | some points =>
        if points.length ≥ 2 then
          let xs := points.map (·.x)
          let ys := points.map (·.y)
          some (.geo "rectangle" (jsMin xs) (jsMin ys) (jsMax xs - jsMin xs)
            (jsMax ys - jsMin ys) color)
        else none
      | none => none
  | .drawHighlight points =>
    if points.length < 3 then none
    else
      some (.draw 0 0
        (consecutiveSegments points ++
          [⟨points.getLastD ⟨0, 0⟩, points.headD ⟨0, 0⟩⟩])
        "yellow" "l" (some true) (some "solid"))
  | .drawCodeBlock text position _ =>
    some (.text position.x position.y text "grey" (some "m"))
  | .drawSpeechBubble text position =>
    some (.text position.x position.y text "light-blue" (some "m"))
  | .showImage url position size =>
    some (.image position.x position.y size.x size.y url)

/-- The geometry guards under which `executeInstruction` `break`s without
creating a shape: the "insufficient required fields" condition of the spec,
read off the source's guards. -/
def insufficientGeometry (instruction : DrawInstruction) : Bool :=
  match instruction.payload with
  | .drawLine _ fromPt toPt pointsOpt =>
    (linePoints pointsOpt fromPt toPt).length < 2
  | .drawShape .triangle pointsOpt _ _ => (pointsOpt.getD []).length < 3
  | .drawShape .circle pointsOpt positionOpt sizeOpt =>
    !(positionOpt.isSome && sizeOpt.isSome) &&
      !(match pointsOpt with
        | some points => points.length > 0
        | none => false)
  | .drawShape .rectangle pointsOpt positionOpt sizeOpt =>
    !(positionOpt.isSome && sizeOpt.isSome) &&
      !(match pointsOpt with
        | some points => points.length ≥ 2
        | none => false)
  | .drawHighlight points => points.length < 3
  | _ => false

/-- One run of `executeInstruction` including its `try`/`catch`: the canvas
oracle says whether `editor.createShape` succeeds on a given call (false
models a thrown primitive-construction exception).  Returns the issued
`createShape` calls and the error message `setError` receives, if any. -/
def runInstruction (canvas : ShapeCall → Bool) (instruction : DrawInstruction)
    (index : Nat) : List ShapeCall × Option String :=
  match executeInstruction instruction with
  | none => ([], none)
  | some c =>
    ([c],
      if canvas c then none
      else some ("Failed to execute instruction " ++ toString (index + 1)))

/-- The instruction loop of `handleSubmit` (narration and `setTimeout` pauses
affect only timing, not which `createShape` calls are issued): each
instruction is executed in array order with its index; per-step errors are
collected and never abort the loop. -/
def handleSubmitPlayback (canvas : ShapeCall → Bool) :
    List DrawInstruction → Nat → List ShapeCall × List String
  | [], _ => ([], [])
  | instruction :: rest, index =>
    ((runInstruction canvas instruction index).1 ++
        (handleSubmitPlayback canvas rest (index + 1)).1,
      (runInstruction canvas instruction index).2.toList ++
        (handleSubmitPlayback canvas rest (index + 1)).2)

/-- One entry of the `generateMockInstructions` tables in
`src/app/api/draw/route.ts`.  Every entry carries `type` and `narration`;
the other fields appear only on some entries. -/
structure MockInstruction where
  type : String
  text : Option String := none
  position : Option Point := none
  points : Option (List Point) := none
  fromPt : Option Point := none
  toPt : Option Point := none
  narration : String
deriving DecidableEq, Repr

/-- The object `generateMockInstructions` returns:
`{ narration, instructions }`. -/
structure MockResponse where
  narration : String
  instructions : List MockInstruction
deriving DecidableEq, Repr

/-- JavaScript `String.prototype.includes`: substring containment. -/
def strIncludes (s pat : String) : Bool :=
  decide (pat.toList <:+: s.toList)

/-- The photosynthesis mock table of `generateMockInstructions`. -/
def photosynthesisResponse : MockResponse where
  narration := "Photosynthesis is the process where plants use sunlight, carbon dioxide, and water to create glucose and oxygen."
  instructions :=
  [{ type := "drawText",
     text := some "PHOTOSYNTHESIS",
     position := some ⟨300, 50⟩,
     narration := "Let\x27s explore how plants make their own food" },
   { type := "drawCircle",
     points := some [⟨100, 150⟩, ⟨200, 150⟩, ⟨200, 250⟩, ⟨100, 250⟩],
     narration := "The sun provides energy for photosynthesis" },
   { type := "drawText",
     text := some "Sun \u201A\u00F2\u00C4\u00D4\u220F\u00E8",
     position := some ⟨120, 180⟩,
     narration := "Sunlight is the primary energy source" },
   { type := "drawArrow",
     fromPt := some ⟨200, 200⟩,
     toPt := some ⟨300, 200⟩,
     narration := "Energy travels from the sun to the plant" },
   { type := "drawRectangle",
     points := some [⟨300, 150⟩, ⟨450, 150⟩, ⟨450, 250⟩, ⟨300, 250⟩],
     narration := "The leaf is where photosynthesis happens" },
   { type := "drawText",
     text := some "Leaf \uF8FF\u00FC\u00E7\u00C9",
     position := some ⟨330, 180⟩,
     narration := "Chloroplasts in the leaf capture sunlight" },
   { type := "drawArrow",
     fromPt := some ⟨450, 200⟩,
     toPt := some ⟨550, 200⟩,
     narration := "The plant produces oxygen and glucose" },
   { type := "drawCircle",
     points := some [⟨550, 150⟩, ⟨650, 150⟩, ⟨650, 250⟩, ⟨550, 250⟩],
     narration := "These are the products of photosynthesis" },
   { type := "drawText",
     text := some "O\u201A\u00C7\u00C7 + Glucose",
     position := some ⟨560, 180⟩,
     narration := "Oxygen is released and glucose is stored" },
   { type := "drawText",
     text := some "CO\u201A\u00C7\u00C7 + H\u201A\u00C7\u00C7O + Light \u201A\u00DC\u00ED C\u201A\u00C7\u00DCH\u201A\u00C7\u00C5\u201A\u00C7\u00C7O\u201A\u00C7\u00DC + O\u201A\u00C7\u00C7",
     position := some ⟨200, 300⟩,
     narration := "This is the chemical equation for photosynthesis" }]

/-- The forLoop mock table of `generateMockInstructions`. -/
def forLoopResponse : MockResponse where
  narration := "A for loop in Python repeats a block of code a specific number of times, iterating through a sequence."
  instructions :=
  [{ type := "drawText",
     text := some "FOR LOOP IN PYTHON",
     position := some ⟨250, 50⟩,
     narration := "Let\x27s understand how for loops work in Python" },
   { type := "drawRectangle",
     points := some [⟨100, 120⟩, ⟨600, 120⟩, ⟨600, 180⟩, ⟨100, 180⟩],
     narration := "This is the for loop header that sets up iteration" },
   { type := "drawText",
     text := some "for i in range(5):",
     position := some ⟨120, 135⟩,
     narration := "We\x27re looping through numbers 0 to 4" },
   { type := "drawArrow",
     fromPt := some ⟨350, 180⟩,
     toPt := some ⟨350, 220⟩,
     narration := "The flow moves into the loop body" },
   { type := "drawRectangle",
     points := some [⟨150, 220⟩, ⟨550, 220⟩, ⟨550, 280⟩, ⟨150, 280⟩],
     narration := "This is the code that runs each iteration" },
   { type := "drawText",
     text := some "    print(i)  # Loop body",
     position := some ⟨170, 235⟩,
     narration := "Each time, we print the current value of i" },
   { type := "drawArrow",
     fromPt := some ⟨150, 250⟩,
     toPt := some ⟨80, 250⟩,
     narration := "After each iteration, we check if there are more items" },
   { type := "drawArrow",
     fromPt := some ⟨80, 250⟩,
     toPt := some ⟨80, 150⟩,
     narration := "If yes, we loop back to the top" },
   { type := "drawArrow",
     fromPt := some ⟨80, 150⟩,
     toPt := some ⟨100, 150⟩,
     narration := "The loop continues until all items are processed" },
   { type := "drawText",
     text := some "\u201A\u00DC\u00AA Repeat",
     position := some ⟨20, 190⟩,
     narration := "This shows the repetitive nature of loops" },
   { type := "drawArrow",
     fromPt := some ⟨350, 280⟩,
     toPt := some ⟨350, 320⟩,
     narration := "Once done, we exit the loop" },
   { type := "drawText",
     text := some "Output: 0, 1, 2, 3, 4",
     position := some ⟨260, 330⟩,
     narration := "The final output shows all the numbers printed" }]

/-- The waterCycle mock table of `generateMockInstructions`. -/
def waterCycleResponse : MockResponse where
  narration := "The water cycle is the continuous movement of water through evaporation, condensation, and precipitation."
  instructions :=
  [{ type := "drawText",
     text := some "WATER CYCLE",
     position := some ⟨300, 30⟩,
     narration := "Let\x27s explore how water moves through nature" },
   { type := "drawCircle",
     points := some [⟨100, 80⟩, ⟨180, 80⟩, ⟨180, 160⟩, ⟨100, 160⟩],
     narration := "Clouds form when water vapor condenses" },
   { type := "drawText",
     text := some "\u201A\u00F2\u00C5\u00D4\u220F\u00E8 Cloud",
     position := some ⟨110, 105⟩,
     narration := "Water vapor becomes tiny water droplets" },
   { type := "drawArrow",
     fromPt := some ⟨140, 160⟩,
     toPt := some ⟨200, 220⟩,
     narration := "Water falls from clouds as precipitation" },
   { type := "drawText",
     text := some "Rain \u201A\u00A8\u00E1\u00D4\u220F\u00E8",
     position := some ⟨145, 180⟩,
     narration := "Rain, snow, or hail falls to Earth" },
   { type := "drawRectangle",
     points := some [⟨150, 220⟩, ⟨400, 220⟩, ⟨400, 280⟩, ⟨150, 280⟩],
     narration := "Water collects in oceans, lakes, and rivers" },
   { type := "drawText",
     text := some "\uF8FF\u00FC\u00E5\u00E4 Ocean/Lake",
     position := some ⟨230, 240⟩,
     narration := "Most of Earth\x27s water is in the oceans" },
   { type := "drawArrow",
     fromPt := some ⟨275, 220⟩,
     toPt := some ⟨275, 160⟩,
     narration := "The sun heats the water, causing evaporation" },
   { type := "drawText",
     text := some "\u201A\u00A8\u00DC\u00D4\u220F\u00E8 Evaporation",
     position := some ⟨280, 180⟩,
     narration := "Liquid water becomes water vapor (gas)" },
   { type := "drawCircle",
     points := some [⟨450, 80⟩, ⟨530, 80⟩, ⟨530, 160⟩, ⟨450, 160⟩],
     narration := "The sun provides energy for the water cycle" },
   { type := "drawText",
     text := some "\u201A\u00F2\u00C4\u00D4\u220F\u00E8 Sun",
     position := some ⟨470, 105⟩,
     narration := "Solar energy drives evaporation and weather" }]

/-- The default generic mock table of `generateMockInstructions`; its first instruction embeds `topic.toUpperCase()`. -/
def defaultResponse (topic : String) : MockResponse where
  narration := "This is a sample diagram. Configure your Gemini API key to get AI-powered educational visualizations!"
  instructions :=
  [{ type := "drawText",
     text := some (jsToUpper topic),
     position := some ⟨250, 50⟩,
     narration := "This is the title of our diagram" },
   { type := "drawText",
     text := some "\uF8FF\u00FC\u00A7\u00F1 AI is thinking...",
     position := some ⟨200, 150⟩,
     narration := "The AI will create custom visualizations for any topic" },
   { type := "drawRectangle",
     points := some [⟨150, 200⟩, ⟨550, 200⟩, ⟨550, 300⟩, ⟨150, 300⟩],
     narration := "This is a placeholder container" },
   { type := "drawText",
     text := some "This is a placeholder diagram.",
     position := some ⟨200, 220⟩,
     narration := "Configure your Gemini API key in .env.local" },
   { type := "drawText",
     text := some "Replace /api/draw with OpenAI integration",
     position := some ⟨170, 250⟩,
     narration := "The API endpoint can use any AI service" },
   { type := "drawText",
     text := some "for intelligent visualizations!",
     position := some ⟨200, 270⟩,
     narration := "AI will generate diagrams based on your topic" },
   { type := "drawCircle",
     points := some [⟨50, 350⟩, ⟨150, 350⟩, ⟨150, 450⟩, ⟨50, 450⟩],
     narration := "Here\x27s a circle shape example" },
   { type := "drawArrow",
     fromPt := some ⟨150, 400⟩,
     toPt := some ⟨250, 400⟩,
     narration := "Arrows show relationships between elements" },
   { type := "drawTriangle",
     points := some [⟨250, 370⟩, ⟨350, 370⟩, ⟨300, 430⟩],
     narration := "Triangles can represent hierarchies or decisions" }]

/-- `generateMockInstructions(topic)`: substring matches against the fixed
topic set, in declaration order, first match winning; no match falls through
to the generic placeholder. -/
def generateMockInstructions (topic : String) : MockResponse :=
  if strIncludes topic "photosynthesis" then photosynthesisResponse
  else if strIncludes topic "for" && strIncludes topic "loop" then
    forLoopResponse
  else if strIncludes topic "water cycle" || strIncludes topic "water" then
    waterCycleResponse
  else defaultResponse topic

/-- A JSON value, as serialized by `NextResponse.json`. -/
inductive JVal where
  | str (s : String)
  | num (n : Int)
  | arr (l : List JVal)
  | obj (fields : List (String × JVal))

/-- JSON serialization of a coordinate pair. -/
def pointJson (p : Point) : JVal :=
  .arr [.num p.x, .num p.y]

/-- A field that is present only when its value is. -/
def optField (name : String) (v : Option JVal) : List (String × JVal) :=
  match v with
  | some j => [(name, j)]
  | none => []

/-- JSON serialization of one mock table entry (absent fields are omitted,
as JSON.stringify drops absent object properties). -/
def mockInstructionJson (i : MockInstruction) : JVal :=
  .obj ([("type", .str i.type)] ++
    optField "text" (i.text.map .str) ++
    optField "position" (i.position.map pointJson) ++
    optField "points" (i.points.map (fun l => .arr (l.map pointJson))) ++
    optField "from" (i.fromPt.map pointJson) ++
    optField "to" (i.toPt.map pointJson) ++
    [("narration", .str i.narration)])

/-- JSON serialization of the object `generateMockInstructions` returns. -/
def mockResponseJson (m : MockResponse) : JVal :=
  .obj [("narration", .str m.narration),
        ("instructions", .arr (m.instructions.map mockInstructionJson))]

/-- The `catch (aiError)` branch of the `/api/draw` POST handler: a provider
throw during generation yields
`NextResponse.json({ instructions })` where
`instructions = generateMockInstructions(topic.toLowerCase())` — i.e. status
200 and a body whose single `instructions` key holds the serialized
`{ narration, instructions }` object. -/
def postProviderFailureResponse (topic : String) : Nat × JVal :=
  (200,
    .obj [("instructions", mockResponseJson (generateMockInstructions
      (jsToLower topic)))])

/-- Field lookup on a JSON object, the client's `data.instructions` access. -/
def lookupField (name : String) : JVal → Option JVal
  | .obj fields => fields.lookup name
  | _ => none

/-- Whether a JSON value is an array — the shape the client's
`ApiResponse.instructions : DrawInstruction[]` type and its
`data.instructions.length > 0` check require. -/
def isJsonArray : JVal → Bool
  | .arr _ => true
  | _ => false

/-! ### Helper lemmas -/

theorem consecutiveSegments_length :
    ∀ l : List Point, (consecutiveSegments l).length = l.length - 1
  | [] => rfl
  | [_] => rfl
  | p :: q :: rest => by
    have ih := consecutiveSegments_length (q :: rest)
    simp only [consecutiveSegments, List.length_cons] at ih ⊢
    omega

theorem foldl_min_le (t : List Int) (a : Int) : ∀ x ∈ a :: t, t.foldl min a ≤ x := by
  induction t generalizing a with
  | nil =>
    intro x hx
    rw [List.mem_singleton] at hx
    simp [hx]
  | cons b t ih =>
    intro x hx
    simp only [List.foldl_cons]
    have hmab := ih (min a b) (min a b) (List.mem_cons_self _ _)
    rcases List.mem_cons.mp hx with rfl | hx'
    · exact le_trans hmab (min_le_left _ _)
    · rcases List.mem_cons.mp hx' with rfl | hx''
      · exact le_trans hmab (min_le_right _ _)
      · exact ih (min a b) x (List.mem_cons_of_mem _ hx'')

theorem foldl_min_mem (t : List Int) (a : Int) : t.foldl min a ∈ a :: t := by
  induction t generalizing a with
  | nil => simp
  | cons b t ih =>
    simp only [List.foldl_cons]
    rcases List.mem_cons.mp (ih (min a b)) with h | h
    · rcases min_choice a b with h2 | h2 <;> rw [h, h2]
      · exact List.mem_cons_self _ _
      · exact List.mem_cons_of_mem _ (List.mem_cons_self _ _)
    · exact List.mem_cons_of_mem _ (List.mem_cons_of_mem _ h)

theorem foldl_max_ge (t : List Int) (a : Int) : ∀ x ∈ a :: t, x ≤ t.foldl max a := by
  induction t generalizing a with
  | nil =>
    intro x hx
    rw [List.mem_singleton] at hx
    simp [hx]
  | cons b t ih =>
    intro x hx
    simp only [List.foldl_cons]
    have hmab := ih (max a b) (max a b) (List.mem_cons_self _ _)
    rcases List.mem_cons.mp hx with rfl | hx'
    · exact le_trans (le_max_left _ _) hmab
    · rcases List.mem_cons.mp hx' with rfl | hx''
      · exact le_trans (le_max_right _ _) hmab
      · exact ih (max a b) x (List.mem_cons_of_mem _ hx'')

theorem foldl_max_mem (t : List Int) (a : Int) : t.foldl max a ∈ a :: t := by
  induction t generalizing a with
  | nil => simp
  | cons b t ih =>
    simp only [List.foldl_cons]
    rcases List.mem_cons.mp (ih (max a b)) with h | h
    · rcases max_choice a b with h2 | h2 <;> rw [h, h2]
      · exact List.mem_cons_self _ _
      · exact List.mem_cons_of_mem _ (List.mem_cons_self _ _)
    · exact List.mem_cons_of_mem _ (List.mem_cons_of_mem _ h)

theorem jsMin_mem : ∀ {l : List Int}, l ≠ [] → jsMin l ∈ l
  | [], h => absurd rfl h
  | _ :: t, _ => foldl_min_mem t _

theorem jsMin_le : ∀ {l : List Int}, l ≠ [] → ∀ x ∈ l, jsMin l ≤ x
  | [], h => absurd rfl h
  | _ :: t, _ => foldl_min_le t _

theorem jsMax_mem : ∀ {l : List Int}, l ≠ [] → jsMax l ∈ l
  | [], h => absurd rfl h
  | _ :: t, _ => foldl_max_mem t _

theorem jsMax_ge : ∀ {l : List Int}, l ≠ [] → ∀ x ∈ l, x ≤ jsMax l
  | [], h => absurd rfl h
  | _ :: t, _ => foldl_max_ge t _

theorem jsMin_perm {l₁ l₂ : List Int} (p : List.Perm l₁ l₂) :
    jsMin l₁ = jsMin l₂ := by
  rcases eq_or_ne l₁ [] with rfl | h₁
  · rw [p.nil_eq.symm]
  · have h₂ : l₂ ≠ [] := fun h => h₁ (List.Perm.eq_nil (h ▸ p))
    exact le_antisymm
      (jsMin_le h₁ _ (p.symm.subset (jsMin_mem h₂)))
      (jsMin_le h₂ _ (p.subset (jsMin_mem h₁)))

theorem jsMax_perm {l₁ l₂ : List Int} (p : List.Perm l₁ l₂) :
    jsMax l₁ = jsMax l₂ := by
  rcases eq_or_ne l₁ [] with rfl | h₁
  · rw [p.nil_eq.symm]
  · have h₂ : l₂ ≠ [] := fun h => h₁ (List.Perm.eq_nil (h ▸ p))
    exact le_antisymm
      (jsMax_ge h₂ _ (p.subset (jsMax_mem h₁)))
      (jsMax_ge h₁ _ (p.symm.subset (jsMax_mem h₂)))

theorem lookup_getD_mem_values (m : List (String × String)) (k d : String) :
    (m.lookup k).getD d = d ∨ (m.lookup k).getD d ∈ m.map Prod.snd := by
  induction m with
  | nil => exact Or.inl rfl
  | cons p t ih =>
    obtain ⟨k', v⟩ := p
    by_cases h : k == k'
    · right
      simp [List.lookup, h]
    · rw [show ((k', v) :: t).lookup k = t.lookup k by simp [List.lookup, h]]
      rcases ih with h1 | h1
      · exact Or.inl h1
      · exact Or.inr (by simp [h1])

theorem executeInstruction_eq_none_of_insufficient (instruction : DrawInstruction)
    (h : insufficientGeometry instruction = true) :
    executeInstruction instruction = none := by
  rcases instruction with ⟨id, step, color, opacity, layer, duration, visible,
    narration, payload⟩
  cases payload with
  | drawText text position => simp [insufficientGeometry] at h
  | drawArrow fromPt toPt => simp [insufficientGeometry] at h
  | drawLine isPath fromPt toPt pointsOpt =>
    simp only [insufficientGeometry, decide_eq_true_eq] at h
    simp [executeInstruction, h]
  | drawShape shapeType pointsOpt positionOpt sizeOpt =>
    cases shapeType with
    | triangle =>
      simp only [insufficientGeometry, decide_eq_true_eq] at h
      simp [executeInstruction, h]
    | circle =>
      simp only [insufficientGeometry, Bool.and_eq_true, Bool.not_eq_true] at h
      obtain ⟨h1, h2⟩ := h
      cases positionOpt <;> cases sizeOpt <;> simp at h1 <;>
        cases pointsOpt <;> simp_all [executeInstruction]
    | rectangle =>
      simp only [insufficientGeometry, Bool.and_eq_true, Bool.not_eq_true] at h
      obtain ⟨h1, h2⟩ := h
      cases positionOpt <;> cases sizeOpt <;> simp at h1 <;>
        cases pointsOpt <;> simp_all [executeInstruction]
  | drawHighlight points =>
    simp only [insufficientGeometry, decide_eq_true_eq] at h
    simp [executeInstruction, h]
  | showImage url position size => simp [insufficientGeometry] at h
  | drawCodeBlock text position size => simp [insufficientGeometry] at h
  | drawSpeechBubble text position => simp [insufficientGeometry] at h

theorem runInstruction_fst (canvas : ShapeCall → Bool)
    (instruction : DrawInstruction) (index : Nat) :
    (runInstruction canvas instruction index).1 =
      (executeInstruction instruction).toList := by
  cases h : executeInstruction instruction <;> simp [runInstruction, h]

theorem runInstruction_error_spec (canvas : ShapeCall → Bool)
    (instruction : DrawInstruction) (index : Nat) (calls : List ShapeCall)
    (msg : String)
    (h : runInstruction canvas instruction index = (calls, some msg)) :
    msg = "Failed to execute instruction " ++ toString (index + 1) ∧
    ∃ c, executeInstruction instruction = some c ∧ canvas c = false ∧
      calls = [c] := by
  cases he : executeInstruction instruction with
  | none => simp [runInstruction, he] at h
  | some c =>
    by_cases hc : canvas c
    · simp [runInstruction, he, hc] at h
    · simp only [runInstruction, he] at h
      rw [if_neg hc] at h
      have h1 : calls = [c] := (congrArg Prod.fst h).symm
      have h2 : msg = "Failed to execute instruction " ++ toString (index + 1) :=
        (Option.some.inj (congrArg Prod.snd h)).symm
      exact ⟨h2, c, rfl, by simpa using hc, h1⟩

theorem handleSubmitPlayback_fst (canvas : ShapeCall → Bool) :
    ∀ (l : List DrawInstruction) (index : Nat),
      (handleSubmitPlayback canvas l index).1 =
        l.flatMap (fun instruction => (executeInstruction instruction).toList)
  | [], _ => rfl
  | a :: t, index => by
    simp only [handleSubmitPlayback, List.flatMap_cons, runInstruction_fst,
      handleSubmitPlayback_fst canvas t (index + 1)]

theorem flatMap_toList_length_le (l : List DrawInstruction) :
    (l.flatMap fun instruction => (executeInstruction instruction).toList).length
      ≤ l.length := by
  induction l with
  | nil => simp
  | cons a t ih =>
    simp only [List.flatMap_cons, List.length_append, List.length_cons]
    have h1 : (executeInstruction a).toList.length ≤ 1 := by
      cases executeInstruction a <;> simp
    omega

theorem executeInstruction_circle_points (instruction : DrawInstruction)
    (pts : List Point) (positionOpt sizeOpt : Option Point)
    (hpay : instruction.payload = .drawShape .circle (some pts) positionOpt sizeOpt)
    (hps : (positionOpt.isSome && sizeOpt.isSome) = false)
    (hne : pts ≠ []) :
    executeInstruction instruction = some (.geo "ellipse"
      (jsMin (pts.map (·.x))) (jsMin (pts.map (·.y)))
      (jsMax (pts.map (·.x)) - jsMin (pts.map (·.x)))
      (jsMax (pts.map (·.y)) - jsMin (pts.map (·.y)))
      (mapToTldrawColor instruction.color)) := by
  have hlen : 0 < pts.length := List.length_pos.mpr hne
  cases positionOpt <;> cases sizeOpt <;> simp_all [executeInstruction, hpay]

theorem executeInstruction_rectangle_points (instruction : DrawInstruction)
    (pts : List Point) (positionOpt sizeOpt : Option Point)
    (hpay : instruction.payload = .drawShape .rectangle (some pts) positionOpt sizeOpt)
    (hps : (positionOpt.isSome && sizeOpt.isSome) = false)
    (hlen : 2 ≤ pts.length) :
    executeInstruction instruction = some (.geo "rectangle"
      (jsMin (pts.map (·.x))) (jsMin (pts.map (·.y)))
      (jsMax (pts.map (·.x)) - jsMin (pts.map (·.x)))
      (jsMax (pts.map (·.y)) - jsMin (pts.map (·.y)))
      (mapToTldrawColor instruction.color)) := by
  cases positionOpt <;> cases sizeOpt <;> simp_all [executeInstruction, hpay]

/-! ### Claim theorems -/

theorem genMock_photosynthesis_lower :
    generateMockInstructions (jsToLower "photosynthesis") =
      photosynthesisResponse := by decide

/-- C1 (code-bug exhibit): when the provider throws during generation for the
topic "photosynthesis", the `/api/draw` handler responds 200, but the
`instructions` field of the response body holds the entire serialized
`{ narration, instructions }` object returned by `generateMockInstructions` —
a JSON object carrying a `narration` key, not an Instruction List (JSON
array) — contradicting the claim that the client receives a non-empty
Instruction List with no overall narration.  The nested mock object's own
instruction list is non-empty, which is what the claim intended to reach the
client. -/
theorem c1_provider_failure_nests_mock_object :
    (postProviderFailureResponse "photosynthesis").1 = 200 ∧
    lookupField "instructions" (postProviderFailureResponse "photosynthesis").2
      = some (mockResponseJson photosynthesisResponse) ∧
    isJsonArray (mockResponseJson photosynthesisResponse) = false ∧
    photosynthesisResponse.instructions ≠ [] := by
  refine ⟨rfl, ?_, rfl, by decide⟩
  simp only [postProviderFailureResponse, lookupField,
    genMock_photosynthesis_lower]
  rfl

/-- C2: an instruction whose variant lacks the required geometry fields is
skipped silently — no `createShape` call is issued and no error is reported;
a reported error message is exactly `Failed to execute instruction (index+1)`
and arises only when `createShape` itself throws on an issued call; and
playback of a concatenated instruction list issues the calls of both parts,
so the instructions after a failing one still execute. -/
theorem c2_insufficient_fields_skip_and_nonfatal_errors :
    (∀ (instruction : DrawInstruction) (canvas : ShapeCall → Bool) (index : Nat),
        insufficientGeometry instruction = true →
        runInstruction canvas instruction index = ([], none)) ∧
    (∀ (canvas : ShapeCall → Bool) (instruction : DrawInstruction) (index : Nat)
        (calls : List ShapeCall) (msg : String),
        runInstruction canvas instruction index = (calls, some msg) →
        msg = "Failed to execute instruction " ++ toString (index + 1) ∧
        ∃ c, executeInstruction instruction = some c ∧ canvas c = false ∧
          calls = [c]) ∧
    (∀ (canvas : ShapeCall → Bool) (l₁ l₂ : List DrawInstruction) (index : Nat),
        (handleSubmitPlayback canvas (l₁ ++ l₂) index).1 =
          (handleSubmitPlayback canvas l₁ index).1 ++
            (handleSubmitPlayback canvas l₂ (index + l₁.length)).1) := by
  refine ⟨?_, ?_, ?_⟩
  · intro instruction canvas index h
    simp [runInstruction,
      executeInstruction_eq_none_of_insufficient instruction h]
  · intro canvas instruction index calls msg h
    exact runInstruction_error_spec canvas instruction index calls msg h
  · intro canvas l₁ l₂ index
    simp [handleSubmitPlayback_fst, List.flatMap_append]

/-- Witness for C2: a drawLine with an empty point list is skipped with no
call and no error even on an always-throwing canvas; a drawText on an
always-throwing canvas reports exactly the per-index message for index 0. -/
theorem c2_witness :
    runInstruction (fun _ => false)
        { payload := .drawLine false (some ⟨0, 0⟩) (some ⟨10, 10⟩) (some []) } 0
      = ([], none) ∧
    ("Failed to execute instruction 1" =
        "Failed to execute instruction " ++ toString (0 + 1) ∧
      ∃ c, executeInstruction { payload := .drawText "t" ⟨0, 0⟩ } = some c ∧
        (fun _ => false : ShapeCall → Bool) c = false ∧
        [ShapeCall.text 0 0 "t" "black" none] = [c]) :=
  ⟨c2_insufficient_fields_skip_and_nonfatal_errors.1
      { payload := .drawLine false (some ⟨0, 0⟩) (some ⟨10, 10⟩) (some []) }
      (fun _ => false) 0 (by decide),
    c2_insufficient_fields_skip_and_nonfatal_errors.2.1 (fun _ => false)
      { payload := .drawText "t" ⟨0, 0⟩ } 0
      [ShapeCall.text 0 0 "t" "black" none]
      "Failed to execute instruction 1" (by decide)⟩

/-- C3 counterexample: a drawLine instruction carrying an explicit EMPTY
point list together with both endpoints.  The claim predicts a fallback to
the `[from, to]` pair and hence a one-segment shape; the code evaluates
`instruction.points || ...` on the truthy empty array, keeps the empty list,
finds fewer than 2 points, and skips without creating anything. -/
theorem c3_counterexample :
    executeInstruction
        { payload := .drawLine false (some ⟨0, 0⟩) (some ⟨10, 10⟩) (some []) }
      = none ∧
    executeInstruction
        { payload := .drawLine false (some ⟨0, 0⟩) (some ⟨10, 10⟩) (some []) }
      ≠ some (.draw 0 0 [⟨⟨0, 0⟩, ⟨10, 10⟩⟩] "black" "m" none none) := by
  decide

/-- C3 as amended: the `[from, to]` fallback applies only when the explicit
point list is ABSENT (not merely shorter than 2 points); if the effective
point list has fewer than 2 points the instruction is skipped; otherwise one
straight segment is built per consecutive point pair and the draw shape is
created without an `isClosed` prop (the path is not closed). -/
theorem c3_line_fallback_only_when_points_absent :
    ∀ (instruction : DrawInstruction) (isPath : Bool)
      (fromPt toPt : Option Point) (pointsOpt : Option (List Point)),
      instruction.payload = .drawLine isPath fromPt toPt pointsOpt →
      (∀ a b, pointsOpt = none → fromPt = some a → toPt = some b →
        linePoints pointsOpt fromPt toPt = [a, b]) ∧
      ((linePoints pointsOpt fromPt toPt).length < 2 →
        executeInstruction instruction = none) ∧
      (2 ≤ (linePoints pointsOpt fromPt toPt).length →
        executeInstruction instruction = some (.draw 0 0
          (consecutiveSegments (linePoints pointsOpt fromPt toPt))
          (mapToTldrawColor instruction.color) "m" none none)) := by
  intro instruction isPath fromPt toPt pointsOpt hpay
  refine ⟨?_, ?_, ?_⟩
  · rintro a b rfl rfl rfl
    rfl
  · intro h
    simp [executeInstruction, hpay, h]
  · intro h
    simp only [executeInstruction, hpay]
    rw [if_neg (by omega)]

/-- Witness for C3: with `points` absent and both endpoints present, the
fallback pair is used and a single segment from (0,0) to (3,4) is drawn. -/
theorem c3_witness :
    linePoints none (some ⟨0, 0⟩) (some ⟨3, 4⟩) = [⟨0, 0⟩, ⟨3, 4⟩] ∧
    executeInstruction
        { payload := .drawLine false (some ⟨0, 0⟩) (some ⟨3, 4⟩) none }
      = some (.draw 0 0 [⟨⟨0, 0⟩, ⟨3, 4⟩⟩] "black" "m" none none) :=
  ⟨(c3_line_fallback_only_when_points_absent
      { payload := .drawLine false (some ⟨0, 0⟩) (some ⟨3, 4⟩) none }
      false (some ⟨0, 0⟩) (some ⟨3, 4⟩) none rfl).1 ⟨0, 0⟩ ⟨3, 4⟩ rfl rfl rfl,
    (c3_line_fallback_only_when_points_absent
      { payload := .drawLine false (some ⟨0, 0⟩) (some ⟨3, 4⟩) none }
      false (some ⟨0, 0⟩) (some ⟨3, 4⟩) none rfl).2.2 (by decide)⟩

/-- C4: over any instruction list and any canvas behavior, playback issues at
most one `createShape` call per instruction (so the call count is bounded by
the instruction count), and the issued call sequence is a total function of
the instruction list alone — independent of which calls throw — so playback
never propagates a throw out of the sequencer loop. -/
theorem c4_playback_call_count_bounded :
    ∀ (canvas : ShapeCall → Bool) (instructions : List DrawInstruction)
      (index : Nat),
      (handleSubmitPlayback canvas instructions index).1.length ≤
        instructions.length ∧
      (handleSubmitPlayback canvas instructions index).1 =
        instructions.flatMap
          (fun instruction => (executeInstruction instruction).toList) := by
  intro canvas instructions index
  refine ⟨?_, handleSubmitPlayback_fst canvas instructions index⟩
  rw [handleSubmitPlayback_fst]
  exact flatMap_toList_length_le instructions

/-- C5: a drawTriangle or drawHighlight instruction with N ≥ 3 points creates
one draw shape whose segments are the N-1 consecutive-pair segments followed
by one closing segment from the last point back to the first — exactly N
segments — with `isClosed` set (a closed polygon). -/
theorem c5_triangle_highlight_closed_polygon :
    ∀ (instruction : DrawInstruction) (pts : List Point)
      (positionOpt sizeOpt : Option Point),
      3 ≤ pts.length →
      (instruction.payload =
          .drawShape .triangle (some pts) positionOpt sizeOpt →
        executeInstruction instruction = some (.draw 0 0
          (consecutiveSegments pts ++
            [⟨pts.getLastD ⟨0, 0⟩, pts.headD ⟨0, 0⟩⟩])
          (mapToTldrawColor instruction.color) "m" (some true) none)) ∧
      (instruction.payload = .drawHighlight pts →
        executeInstruction instruction = some (.draw 0 0
          (consecutiveSegments pts ++
            [⟨pts.getLastD ⟨0, 0⟩, pts.headD ⟨0, 0⟩⟩])
          "yellow" "l" (some true) (some "solid"))) ∧
      (consecutiveSegments pts ++
        ([⟨pts.getLastD ⟨0, 0⟩, pts.headD ⟨0, 0⟩⟩] : List Segment)).length
        = pts.length := by
  intro instruction pts positionOpt sizeOpt hlen
  have hnlt : ¬ pts.length < 3 := by omega
  refine ⟨?_, ?_, ?_⟩
  · intro hpay
    simp only [executeInstruction, hpay, Option.getD_some]
    rw [if_neg hnlt]
  · intro hpay
    simp only [executeInstruction, hpay]
    rw [if_neg hnlt]
  · rw [List.length_append, consecutiveSegments_length]
    simp only [List.length_singleton]
    omega

/-- Witness for C5 at the default table's triangle, whose three points yield
two connecting segments plus the closing segment — three segments in all. -/
theorem c5_witness :
    executeInstruction { payload := (.drawShape .triangle
        (some [⟨250, 370⟩, ⟨350, 370⟩, ⟨300, 430⟩]) none none) }
      = some (.draw 0 0
        [⟨⟨250, 370⟩, ⟨350, 370⟩⟩, ⟨⟨350, 370⟩, ⟨300, 430⟩⟩,
          ⟨⟨300, 430⟩, ⟨250, 370⟩⟩] "black" "m" (some true) none) ∧
    executeInstruction
        { payload := .drawHighlight [⟨250, 370⟩, ⟨350, 370⟩, ⟨300, 430⟩] }
      = some (.draw 0 0
        [⟨⟨250, 370⟩, ⟨350, 370⟩⟩, ⟨⟨350, 370⟩, ⟨300, 430⟩⟩,
          ⟨⟨300, 430⟩, ⟨250, 370⟩⟩] "yellow" "l" (some true) (some "solid")) ∧
    ([⟨⟨250, 370⟩, ⟨350, 370⟩⟩, ⟨⟨350, 370⟩, ⟨300, 430⟩⟩,
      ⟨⟨300, 430⟩, ⟨250, 370⟩⟩] : List Segment).length = 3 :=
  ⟨(c5_triangle_highlight_closed_polygon
      { payload := (.drawShape .triangle
          (some [⟨250, 370⟩, ⟨350, 370⟩, ⟨300, 430⟩]) none none) }
      [⟨250, 370⟩, ⟨350, 370⟩, ⟨300, 430⟩] none none (by decide)).1 rfl,
    (c5_triangle_highlight_closed_polygon
      { payload := .drawHighlight [⟨250, 370⟩, ⟨350, 370⟩, ⟨300, 430⟩] }
      [⟨250, 370⟩, ⟨350, 370⟩, ⟨300, 430⟩] none none (by decide)).2.1 rfl,
    (c5_triangle_highlight_closed_polygon
      { payload := .drawHighlight [⟨250, 370⟩, ⟨350, 370⟩, ⟨300, 430⟩] }
      [⟨250, 370⟩, ⟨350, 370⟩, ⟨300, 430⟩] none none (by decide)).2.2⟩

/-- C6: when a drawCircle (any nonempty point list) or drawRectangle (at
least 2 points) instruction has no position+size pair, the created geo shape
uses the axis-aligned bounding box: origin at the coordinate-wise minima,
width/height the maxima minus minima; and for every permutation of
`[[0,0],[10,0],[10,10],[0,10]]` this yields origin (0,0) and size (10,10). -/
theorem c6_bounding_box_from_points :
    (∀ (instruction : DrawInstruction) (pts : List Point)
        (positionOpt sizeOpt : Option Point),
        (positionOpt.isSome && sizeOpt.isSome) = false →
        (instruction.payload =
            .drawShape .circle (some pts) positionOpt sizeOpt →
          pts ≠ [] →
          executeInstruction instruction = some (.geo "ellipse"
            (jsMin (pts.map (·.x))) (jsMin (pts.map (·.y)))
            (jsMax (pts.map (·.x)) - jsMin (pts.map (·.x)))
            (jsMax (pts.map (·.y)) - jsMin (pts.map (·.y)))
            (mapToTldrawColor instruction.color))) ∧
        (instruction.payload =
            .drawShape .rectangle (some pts) positionOpt sizeOpt →
          2 ≤ pts.length →
          executeInstruction instruction = some (.geo "rectangle"
            (jsMin (pts.map (·.x))) (jsMin (pts.map (·.y)))
            (jsMax (pts.map (·.x)) - jsMin (pts.map (·.x)))
            (jsMax (pts.map (·.y)) - jsMin (pts.map (·.y)))
            (mapToTldrawColor instruction.color)))) ∧
    (∀ pts : List Point,
        List.Perm pts [⟨0, 0⟩, ⟨10, 0⟩, ⟨10, 10⟩, ⟨0, 10⟩] →
        executeInstruction
            { payload := .drawShape .circle (some pts) none none }
          = some (.geo "ellipse" 0 0 10 10 "black") ∧
        executeInstruction
            { payload := .drawShape .rectangle (some pts) none none }
          = some (.geo "rectangle" 0 0 10 10 "black")) := by
  constructor
  · intro instruction pts positionOpt sizeOpt hps
    exact ⟨fun hpay hne => executeInstruction_circle_points instruction pts
        positionOpt sizeOpt hpay hps hne,
      fun hpay hlen => executeInstruction_rectangle_points instruction pts
        positionOpt sizeOpt hpay hps hlen⟩
  · intro pts hperm
    have hx := jsMin_perm (hperm.map (·.x))
    have hgx := jsMax_perm (hperm.map (·.x))
    have hy := jsMin_perm (hperm.map (·.y))
    have hgy := jsMax_perm (hperm.map (·.y))
    have hne : pts ≠ [] := by
      intro h
      rw [h] at hperm
      exact absurd hperm.length_eq (by decide)
    have hlen : 2 ≤ pts.length := by
      rw [hperm.length_eq]
      decide
    constructor
    · rw [executeInstruction_circle_points _ pts none none rfl rfl hne]
      rw [hx, hgx, hy, hgy]
      rfl
    · rw [executeInstruction_rectangle_points _ pts none none rfl rfl hlen]
      rw [hx, hgx, hy, hgy]
      rfl

/-- Witness for C6: a permutation of the four corner points still yields the
(0,0)-(10,10) bounding box, and the general box derivation at a concrete
two-point rectangle. -/
theorem c6_witness :
    (executeInstruction { payload := (.drawShape .circle
        (some [⟨10, 0⟩, ⟨0, 10⟩, ⟨10, 10⟩, ⟨0, 0⟩]) none none) }
      = some (.geo "ellipse" 0 0 10 10 "black") ∧
    executeInstruction { payload := (.drawShape .rectangle
        (some [⟨10, 0⟩, ⟨0, 10⟩, ⟨10, 10⟩, ⟨0, 0⟩]) none none) }
      = some (.geo "rectangle" 0 0 10 10 "black")) ∧
    executeInstruction { payload := (.drawShape .rectangle
        (some [⟨300, 150⟩, ⟨450, 250⟩]) none none) }
      = some (.geo "rectangle" 300 150 150 100 "black") :=
  ⟨c6_bounding_box_from_points.2 [⟨10, 0⟩, ⟨0, 10⟩, ⟨10, 10⟩, ⟨0, 0⟩]
      (by decide),
    (c6_bounding_box_from_points.1
      { payload := (.drawShape .rectangle
          (some [⟨300, 150⟩, ⟨450, 250⟩]) none none) }
      [⟨300, 150⟩, ⟨450, 250⟩] none none rfl).2 rfl (by decide)⟩

/-- C7: drawArrow creates an arrow anchored at the `from` coordinates whose
`start` prop is the local origin (0,0) and whose `end` prop is the local
offset `to - from`; in particular (100,100)→(150,120) gives anchor (100,100)
and end-offset (50,20). -/
theorem c7_arrow_anchor_and_local_offset :
    (∀ (instruction : DrawInstruction) (fromPt toPt : Point),
        instruction.payload = .drawArrow fromPt toPt →
        executeInstruction instruction = some (.arrow fromPt.x fromPt.y 0 0
          (toPt.x - fromPt.x) (toPt.y - fromPt.y)
          (mapToTldrawColor instruction.color))) ∧
    executeInstruction { payload := .drawArrow ⟨100, 100⟩ ⟨150, 120⟩ }
      = some (.arrow 100 100 0 0 50 20 "black") := by
  constructor
  · intro instruction fromPt toPt hpay
    simp [executeInstruction, hpay]
  · decide

/-- Witness for C7: the general statement applied at the concrete arrow
(100,100)→(150,120). -/
theorem c7_witness :
    executeInstruction { payload := .drawArrow ⟨100, 100⟩ ⟨150, 120⟩ }
      = some (.arrow 100 100 0 0 50 20 "black") :=
  c7_arrow_anchor_and_local_offset.1
    { payload := .drawArrow ⟨100, 100⟩ ⟨150, 120⟩ } ⟨100, 100⟩ ⟨150, 120⟩ rfl

/-- C8: the Color Normalizer is total — every output lies in the fixed
13-color tldraw palette — `"#FF0000"` and `"red"` map to the same palette
value, case is ignored, and absent or unrecognized input maps to the default
`"black"`. -/
theorem c8_color_normalizer_total_and_default :
    (∀ colorInput : Option String, mapToTldrawColor colorInput ∈ palette) ∧
    mapToTldrawColor (some "#FF0000") = mapToTldrawColor (some "red") ∧
    mapToTldrawColor (some "RED") = mapToTldrawColor (some "red") ∧
    mapToTldrawColor none = "black" ∧
    mapToTldrawColor (some "not-a-color") = "black" := by
  refine ⟨?_, by decide, by decide, rfl, by decide⟩
  intro colorInput
  match colorInput with
  | none => decide
  | some s =>
    show (colorMap.lookup (jsToLower s)).getD "black" ∈ palette
    rcases lookup_getD_mem_values colorMap (jsToLower s) "black" with h | h
    · rw [h]
      decide
    · exact (by decide : ∀ v ∈ colorMap.map Prod.snd, v ∈ palette) _ h

/-- C9: the Fallback Generator matches known topics by substring containment
in declaration order with "photosynthesis" first, so any topic containing
"photosynthesis" yields the photosynthesis table; "xyz-unknown-topic"
matches none of the fixed topics and yields the generic placeholder whose
title instruction embeds the topic uppercased. -/
theorem c9_mock_generator_matching :
    (∀ topic : String, strIncludes topic "photosynthesis" = true →
        generateMockInstructions topic = photosynthesisResponse) ∧
    generateMockInstructions "xyz-unknown-topic" =
      defaultResponse "xyz-unknown-topic" ∧
    strIncludes "xyz-unknown-topic" "photosynthesis" = false ∧
    (strIncludes "xyz-unknown-topic" "for" &&
      strIncludes "xyz-unknown-topic" "loop") = false ∧
    (strIncludes "xyz-unknown-topic" "water cycle" ||
      strIncludes "xyz-unknown-topic" "water") = false ∧
    (defaultResponse "xyz-unknown-topic").instructions.head?.map
        MockInstruction.text = some (some (jsToUpper "xyz-unknown-topic")) ∧
    jsToUpper "xyz-unknown-topic" = "XYZ-UNKNOWN-TOPIC" ∧
    photosynthesisResponse.instructions ≠ [] ∧
    defaultResponse "xyz-unknown-topic" ≠ photosynthesisResponse := by
  refine ⟨?_, by decide, by decide, by decide, by decide, by decide,
    by decide, by decide, by decide⟩
  intro topic h
  simp [generateMockInstructions, h]

/-- Witness for C9: the topic "photosynthesis" itself yields the
photosynthesis table. -/
theorem c9_witness :
    generateMockInstructions "photosynthesis" = photosynthesisResponse :=
  c9_mock_generator_matching.1 "photosynthesis" (by decide)

/-- C10: drawCodeBlock always creates its text primitive with color "grey"
and drawSpeechBubble with "light-blue", whatever the instruction's own color
field holds — the color field (and its normalization) is ignored for these
two variants. -/
theorem c10_codeblock_speechbubble_fixed_colors :
    ∀ (instruction : DrawInstruction) (text : String) (position : Point)
      (size : Option Point),
      (instruction.payload = .drawCodeBlock text position size →
        executeInstruction instruction =
          some (.text position.x position.y text "grey" (some "m"))) ∧
      (instruction.payload = .drawSpeechBubble text position →
        executeInstruction instruction =
          some (.text position.x position.y text "light-blue" (some "m"))) := by
  intro instruction text position size
  constructor <;> intro hpay <;> simp [executeInstruction, hpay]

/-- Witness for C10: even with `color: "red"` on the instruction, the
created text primitive is grey (code block) or light-blue (speech bubble). -/
theorem c10_witness :
    executeInstruction
        { color := some "red", payload := .drawCodeBlock "code" ⟨1, 2⟩ none }
      = some (.text 1 2 "code" "grey" (some "m")) ∧
    executeInstruction
        { color := some "red", payload := .drawSpeechBubble "hi" ⟨3, 4⟩ }
      = some (.text 3 4 "hi" "light-blue" (some "m")) :=
  ⟨(c10_codeblock_speechbubble_fixed_colors
      { color := some "red", payload := .drawCodeBlock "code" ⟨1, 2⟩ none }
      "code" ⟨1, 2⟩ none).1 rfl,
    (c10_codeblock_speechbubble_fixed_colors
      { color := some "red", payload := .drawSpeechBubble "hi" ⟨3, 4⟩ }
      "hi" ⟨3, 4⟩ none).2 rfl⟩

end Whiteboard

